import Mathlib

/-!
# Verification of the CSE-Weather-Model ESP32 resilience layer

Shallow embedding, in Lean 4, of the parts of the repository that the
specification's testable properties talk about:

* `weather_scaling.h` — the four min-max feature scaling functions;
* `sensor_simulate.h` — the 15-slot circular averaging buffers, the
  prediction-tick upload fan-out (`makePrediction` / `uploadToCloud`),
  and the per-sink statistics counters;
* `wifi_manager.h` — the connection state machine (`connect`,
  `attemptConnection`, `onConnectionFailed`, `update`, `isConnected`);
* `cloud_manager.h` — `uploadData` response classification and the
  `uploadWithRetry` bounded retry loop;
* `firebase_manager.h` — `shouldBackup` / `backupData` and the
  consecutive-failure circuit breaker.

C `float` values are modelled as exact rationals (`ℚ`); `millis()` and
the network environment (Wi-Fi link state, DNS resolution, HTTP response
codes, Firebase readiness and write outcomes) are passed in explicitly as
parameters, since they are external inputs to the embedded code.
-/

set_option maxRecDepth 4096

/-! ## FeatureScaler (`weather_scaling.h`) -/

/-- `MAX_WIFI_RETRIES` from `wifi_manager.h`. -/
def MAX_WIFI_RETRIES : ℕ := 5

/-- `WIFI_CHECK_INTERVAL` from `wifi_manager.h`. -/
def WIFI_CHECK_INTERVAL : ℕ := 10000

/-- The `WiFiStatus` enum from `wifi_manager.h`. -/
inductive WiFiStatus where
  | WIFI_IDLE
  | WIFI_CONNECTING
  | WIFI_CONNECTED
  | WIFI_DISCONNECTED
  | WIFI_FAILED
  | WIFI_RECONNECTING
deriving DecidableEq, Repr

export WiFiStatus (WIFI_IDLE WIFI_CONNECTING WIFI_CONNECTED
  WIFI_DISCONNECTED WIFI_FAILED WIFI_RECONNECTING)

/-- The private state of the `WiFiManager` class. -/
structure WifiState where
  currentStatus : WiFiStatus
  retryCount : ℕ
  lastConnectionAttempt : ℕ
  lastStatusCheck : ℕ
  connectionStartTime : ℕ
  autoReconnect : Bool
  totalConnectionAttempts : ℕ
  successfulConnections : ℕ
  failedConnections : ℕ
  totalConnectedTime : ℕ
  lastConnectedTime : ℕ
deriving DecidableEq, Repr

/-- The `WiFiManager` constructor: idle, zeroed counters, auto-reconnect on. -/
def initWifiState : WifiState :=
  ⟨WIFI_IDLE, 0, 0, 0, 0, true, 0, 0, 0, 0, 0⟩

namespace WiFiManager

/-- `onConnectionSuccess`: mark connected and record the statistics. -/
def onConnectionSuccess (now : ℕ) (s : WifiState) : WifiState :=
  { s with currentStatus := WIFI_CONNECTED,
           successfulConnections := s.successfulConnections + 1,
           lastConnectedTime := now }

/-- `attemptConnection` together with the `onConnectionFailed` retry logic it
calls: increment `retryCount`, stamp `lastConnectionAttempt`, consult the
radio; on failure either re-enter (`WIFI_RECONNECTING`, recursive call) while
`retryCount < MAX_WIFI_RETRIES`, or finish in `WIFI_FAILED` with
`failedConnections` incremented.  Returns the final state, the boolean result
of the outermost `attemptConnection` call, and the number of connection
attempts performed. -/
def attemptConnection (outcome : ℕ → Bool) (now : ℕ) (s : WifiState) :
    WifiState × Bool × ℕ :=
  let s1 : WifiState :=
    { s with retryCount := s.retryCount + 1, lastConnectionAttempt := now }
  if outcome s1.retryCount then
    (onConnectionSuccess now s1, true, 1)
  else
    if h : s1.retryCount < MAX_WIFI_RETRIES then
      let r := attemptConnection outcome now { s1 with currentStatus := WIFI_RECONNECTING }
      (r.1, r.2.1, r.2.2 + 1)
    else
      ({ s1 with currentStatus := WIFI_FAILED,
                 failedConnections := s1.failedConnections + 1 }, false, 1)
termination_by MAX_WIFI_RETRIES - s.retryCount
decreasing_by simp only [MAX_WIFI_RETRIES] at *; omega

/-- `connect`: refuse (returning `false`) while already `WIFI_CONNECTING`;
otherwise enter `WIFI_CONNECTING`, reset `retryCount`, count the attempt,
stamp `connectionStartTime` and run `attemptConnection`. -/
def connect (outcome : ℕ → Bool) (now : ℕ) (s : WifiState) :
    WifiState × Bool × ℕ :=
  if s.currentStatus = WIFI_CONNECTING then
    (s, false, 0)
  else
    let s1 : WifiState :=
      { s with currentStatus := WIFI_CONNECTING,
               retryCount := 0,
               totalConnectionAttempts := s.totalConnectionAttempts + 1,
               connectionStartTime := now }
    attemptConnection outcome now s1

/-- `onDisconnected`: account the connected time and mark disconnected. -/
def onDisconnected (now : ℕ) (s : WifiState) : WifiState :=
  let s1 :=
    if s.currentStatus = WIFI_CONNECTED then
      { s with totalConnectedTime := s.totalConnectedTime + (now - s.lastConnectedTime) }
    else s
  { s1 with currentStatus := WIFI_DISCONNECTED }

/-- `update`: the periodic health check.  `transportConnected` is the value
of `WiFi.status() == WL_CONNECTED` at the check, `outcome` drives any
auto-reconnect `connect` call. -/
def update (transportConnected : Bool) (outcome : ℕ → Bool) (now : ℕ)
    (s : WifiState) : WifiState :=
  if now - s.lastStatusCheck < WIFI_CHECK_INTERVAL then s
  else
    let s1 := { s with lastStatusCheck := now }
    let s2 :=
      if s1.currentStatus = WIFI_CONNECTED ∧ transportConnected = false then
        onDisconnected now s1
      else s1
    if s2.autoReconnect = true ∧ s2.currentStatus = WIFI_DISCONNECTED then
      (connect outcome now s2).1
    else s2

/-- `isConnected`: the manager reports availability only when its own state
says `WIFI_CONNECTED` and the transport concurrently reports an active link
(`WiFi.status() == WL_CONNECTED`, the `transportConnected` argument). -/
def isConnected (s : WifiState) (transportConnected : Bool) : Bool :=
  decide (s.currentStatus = WIFI_CONNECTED) && transportConnected

end WiFiManager

/-- C5: `WiFiManager.isConnected` is true exactly when the manager state is
`WIFI_CONNECTED` and the underlying transport concurrently reports an active
link; in particular it is never true while the transport reports inactive. -/
theorem C5_isConnected_iff_connected_and_link :
    (∀ (s : WifiState) (t : Bool),
      WiFiManager.isConnected s t = true ↔
        (s.currentStatus = WIFI_CONNECTED ∧ t = true)) ∧
    (∀ s : WifiState, WiFiManager.isConnected s false = false) := by
  constructor
  · intro s t
    simp [WiFiManager.isConnected]
  · intro s
    simp [WiFiManager.isConnected]

/-- C7: with every connection attempt failing, the recursive retry logic
performs exactly `MAX_WIFI_RETRIES = 5` attempts (one `retryCount` increment
per attempt, retrying only while `retryCount < 5`), then sets the state to
`WIFI_FAILED`, increments `failedConnections` exactly once, and a subsequent
periodic `update` takes no automatic action that leaves `WIFI_FAILED`. -/
theorem C7_retry_bounded_five_attempts :
    ∀ (now : ℕ) (s : WifiState), s.currentStatus ≠ WIFI_CONNECTING →
      (WiFiManager.connect (fun _ => false) now s).2.1 = false ∧
      (WiFiManager.connect (fun _ => false) now s).2.2 = MAX_WIFI_RETRIES ∧
      (WiFiManager.connect (fun _ => false) now s).1.currentStatus = WIFI_FAILED ∧
      (WiFiManager.connect (fun _ => false) now s).1.retryCount = MAX_WIFI_RETRIES ∧
      (WiFiManager.connect (fun _ => false) now s).1.failedConnections
          = s.failedConnections + 1 ∧
      (∀ (t : Bool) (o : ℕ → Bool) (now2 : ℕ),
        (WiFiManager.update t o now2
            (WiFiManager.connect (fun _ => false) now s).1).currentStatus
          = WIFI_FAILED) := by
  intro now s h
  have key : WiFiManager.connect (fun _ => false) now s
      = ({ s with currentStatus := WIFI_FAILED, retryCount := 5,
                  lastConnectionAttempt := now,
                  totalConnectionAttempts := s.totalConnectionAttempts + 1,
                  connectionStartTime := now,
                  failedConnections := s.failedConnections + 1 }, false, 5) := by
    unfold WiFiManager.connect
    rw [if_neg h]
    simp [WiFiManager.attemptConnection, MAX_WIFI_RETRIES]
  rw [key]
  refine ⟨rfl, rfl, rfl, rfl, rfl, ?_⟩
  intro t o now2
  unfold WiFiManager.update
  split_ifs with h1 <;> simp [MAX_WIFI_RETRIES]

/-- Witness for C7: the all-failures bound evaluated from the freshly
constructed manager state. -/
theorem C7_retry_bounded_five_attempts_witness :
    (WiFiManager.connect (fun _ => false) 0 initWifiState).2.1 = false ∧
    (WiFiManager.connect (fun _ => false) 0 initWifiState).2.2 = MAX_WIFI_RETRIES ∧
    (WiFiManager.connect (fun _ => false) 0 initWifiState).1.currentStatus = WIFI_FAILED ∧
    (WiFiManager.connect (fun _ => false) 0 initWifiState).1.retryCount = MAX_WIFI_RETRIES ∧
    (WiFiManager.connect (fun _ => false) 0 initWifiState).1.failedConnections
        = initWifiState.failedConnections + 1 ∧
    (WiFiManager.update true (fun _ => true) 20000
        (WiFiManager.connect (fun _ => false) 0 initWifiState).1).currentStatus
      = WIFI_FAILED := by
  have h := C7_retry_bounded_five_attempts 0 initWifiState (by decide)
  exact ⟨h.1, h.2.1, h.2.2.1, h.2.2.2.1, h.2.2.2.2.1,
         h.2.2.2.2.2 true (fun _ => true) 20000⟩

/-- A manager state that is mid-connection, used to witness C8. -/
def connectingWifiState : WifiState :=
  { initWifiState with currentStatus := WIFI_CONNECTING }

/-- C8: calling `connect` while the state is already `WIFI_CONNECTING`
returns `false`, makes no connection attempt, and leaves every field of the
state untouched (the returned state is the argument state itself). -/
theorem C8_connect_noop_while_connecting :
    ∀ (outcome : ℕ → Bool) (now : ℕ) (s : WifiState),
      s.currentStatus = WIFI_CONNECTING →
      WiFiManager.connect outcome now s = (s, false, 0) := by
  intro o now s h
  unfold WiFiManager.connect
  rw [if_pos h]

/-- Witness for C8: a concrete mid-connection state is returned unchanged. -/
theorem C8_connect_noop_while_connecting_witness :
    WiFiManager.connect (fun _ => true) 5 connectingWifiState
      = (connectingWifiState, false, 0) :=
  C8_connect_noop_while_connecting (fun _ => true) 5 connectingWifiState rfl

/-! ## PrimarySink (`cloud_manager.h`)

`CloudManager.uploadData` is embedded over its external inputs: the Wi-Fi
link state at the pre-check, the DNS resolution result, and the HTTP
response code returned by `http.GET()` (positive codes are HTTP responses,
non-positive codes are transport-level errors, as in the Arduino
`HTTPClient`).  `uploadWithRetry` is the bounded retry loop around it; each
attempt sees its own environment triple. -/

namespace CloudManager

/-- `MAX_RETRIES` from `uploadWithRetry` in `cloud_manager.h`. -/
def MAX_RETRIES : ℕ := 3

/-- `uploadData` from `cloud_manager.h`: fail when Wi-Fi is down, fail when
DNS resolution fails, then issue the request; `success` is set only for
response code 200, every other response code and every transport-level error
(`httpCode ≤ 0`) leaves `success = false`. -/
def uploadData (wifiConnected dnsOk : Bool) (httpCode : ℤ) : Bool :=
  if wifiConnected = false then false
  else if dnsOk = false then false
  else if 0 < httpCode then
    if httpCode = 200 then true else false
  else false

/-- The retry loop body of `uploadWithRetry`, entered at attempt number
`attempt`: try `uploadData` with that attempt's environment; on success
return `true` immediately; on failure wait `2000 * attempt` ms and retry
while `attempt < MAX_RETRIES`, else give up with `false`.  Besides the
boolean result it returns the list of attempt numbers performed and the list
of inter-attempt delays waited, for the bound statements. -/
def uploadGo (env : ℕ → Bool × Bool × ℤ) (attempt : ℕ) :
    Bool × List ℕ × List ℕ :=
  if MAX_RETRIES < attempt then (false, [], [])
  else
    if uploadData (env attempt).1 (env attempt).2.1 (env attempt).2.2 then
      (true, [attempt], [])
    else if h : attempt < MAX_RETRIES then
      let r := uploadGo env (attempt + 1)
      (r.1, attempt :: r.2.1, 2000 * attempt :: r.2.2)
    else
      (false, [attempt], [])
termination_by MAX_RETRIES + 1 - attempt
decreasing_by simp only [MAX_RETRIES] at *; omega

/-- `uploadWithRetry` from `cloud_manager.h`: the loop starts at attempt 1. -/
def uploadWithRetry (env : ℕ → Bool × Bool × ℤ) : Bool × List ℕ × List ℕ :=
  uploadGo env 1

end CloudManager

/-- C3: when every underlying `uploadData` call fails, `uploadWithRetry`
performs exactly 3 attempts with inter-attempt waits `2000` ms then
`4000` ms (linear, non-decreasing) and returns `false` — no fourth attempt
occurs; and when the first attempt that succeeds is attempt `j ≤ 3`, it
returns `true` immediately after attempts `1..j` with waits
`2000·1, …, 2000·(j-1)`. -/
theorem C3_uploadWithRetry_three_attempts :
    (∀ env : ℕ → Bool × Bool × ℤ,
      (∀ n, CloudManager.uploadData (env n).1 (env n).2.1 (env n).2.2 = false) →
      CloudManager.uploadWithRetry env = (false, [1, 2, 3], [2000, 4000])) ∧
    (∀ (env : ℕ → Bool × Bool × ℤ) (j : ℕ), 1 ≤ j → j ≤ 3 →
      (∀ i, 1 ≤ i → i < j →
        CloudManager.uploadData (env i).1 (env i).2.1 (env i).2.2 = false) →
      CloudManager.uploadData (env j).1 (env j).2.1 (env j).2.2 = true →
      CloudManager.uploadWithRetry env
        = (true, List.range' 1 j, (List.range' 1 (j - 1)).map (fun a => 2000 * a))) := by
  constructor
  · intro env hfail
    unfold CloudManager.uploadWithRetry
    rw [CloudManager.uploadGo, CloudManager.uploadGo, CloudManager.uploadGo]
    simp [hfail 1, hfail 2, hfail 3, CloudManager.MAX_RETRIES]
  · intro env j h1 h3 hprev hj
    unfold CloudManager.uploadWithRetry
    interval_cases j
    · rw [CloudManager.uploadGo]
      simp [hj, CloudManager.MAX_RETRIES]
    · rw [CloudManager.uploadGo, CloudManager.uploadGo]
      simp [hprev 1 (by norm_num) (by norm_num), hj, CloudManager.MAX_RETRIES,
        List.range']
    · rw [CloudManager.uploadGo, CloudManager.uploadGo, CloudManager.uploadGo]
      simp [hprev 1 (by norm_num) (by norm_num), hprev 2 (by norm_num) (by norm_num),
        hj, CloudManager.MAX_RETRIES, List.range']

/-- Witness for C3: an always-failing environment yields exactly the three
attempts and the 2000 ms / 4000 ms waits, and an environment whose first
success is attempt 2 stops right there. -/
theorem C3_uploadWithRetry_three_attempts_witness :
    CloudManager.uploadWithRetry (fun _ => (false, false, 0))
      = (false, [1, 2, 3], [2000, 4000]) ∧
    CloudManager.uploadWithRetry
        (fun n => (true, true, if n = 2 then 200 else 0))
      = (true, List.range' 1 2, (List.range' 1 (2 - 1)).map (fun a => 2000 * a)) := by
  constructor
  · exact C3_uploadWithRetry_three_attempts.1 (fun _ => (false, false, 0))
      (fun n => by rfl)
  · exact C3_uploadWithRetry_three_attempts.2
      (fun n => (true, true, if n = 2 then 200 else 0)) 2
      (by norm_num) (by norm_num)
      (fun i hi1 hi2 => by
        interval_cases i
        decide)
      (by decide)

/-- C4 counterexample: the claim says `uploadData` succeeds exactly on the
2xx response class, but on the concrete HTTP response 201 — a 2xx code,
with the Wi-Fi and DNS pre-checks passing — `uploadData` returns `false`:
the code accepts only the single code 200. -/
theorem C4_cex_201_is_2xx_but_fails :
    CloudManager.uploadData true true 201 = false ∧
    (200 : ℤ) ≤ 201 ∧ (201 : ℤ) ≤ 299 := by
  refine ⟨by decide, by norm_num, by norm_num⟩

/-- C4 (amended): `uploadData` returns `true` exactly when the Wi-Fi
pre-check passes, the DNS pre-check passes, and the HTTP response code is
exactly 200; every other response code — including the rest of the 2xx
class — and every transport-level error is classified as failure. -/
theorem C4_uploadData_success_iff_200 :
    ∀ (wifiConnected dnsOk : Bool) (httpCode : ℤ),
      CloudManager.uploadData wifiConnected dnsOk httpCode = true ↔
        (wifiConnected = true ∧ dnsOk = true ∧ httpCode = 200) := by
  intro w d c
  unfold CloudManager.uploadData
  rcases w <;> rcases d <;> simp
  omega

/-! ## SecondarySink (`firebase_manager.h`)

`FirebaseManager` is embedded as a state record; `Firebase.ready()` and the
outcome of `Firebase.RTDB.setJSON` are external inputs (`ready`, `writeOk`),
`millis()` is the explicit `now` parameter.  The payload fields (readings,
prediction string, inference time) do not influence the control flow or the
counters and are therefore not carried in the state. -/

/-- `FIREBASE_ENABLED` from `firebase_manager.h`. -/
def FIREBASE_ENABLED : Bool := true

/-- `BACKUP_INTERVAL` from `firebase_manager.h` (ms). -/
def BACKUP_INTERVAL : ℕ := 15000

/-- `MAX_FAILED_UPLOADS` from `firebase_manager.h`. -/
def MAX_FAILED_UPLOADS : ℕ := 10

/-- The private state of the `FirebaseManager` class (the fields that the
backup control flow reads or writes). -/
structure FbState where
  enabled : Bool
  initialized : Bool
  backupInterval : ℕ
  maxConsecutiveFailures : ℕ
  lastBackupTime : ℕ
  readingCount : ℕ
  totalBackups : ℕ
  successfulBackups : ℕ
  failedBackups : ℕ
  consecutiveFailures : ℕ
deriving DecidableEq, Repr

/-- The `FirebaseManager` constructor. -/
def initFbState : FbState :=
  ⟨FIREBASE_ENABLED, false, BACKUP_INTERVAL, MAX_FAILED_UPLOADS, 0, 0, 0, 0, 0, 0⟩

namespace FirebaseManager

/-- `shouldBackup` from `firebase_manager.h`: requires enabled and
initialized, refuses once `consecutiveFailures ≥ maxConsecutiveFailures`,
and rate-limits to one backup per `backupInterval`. -/
def shouldBackup (now : ℕ) (s : FbState) : Bool :=
  if s.enabled = false ∨ s.initialized = false then false
  else if s.maxConsecutiveFailures ≤ s.consecutiveFailures then false
  else decide (s.backupInterval ≤ now - s.lastBackupTime)

/-- `onBackupSuccess`: count the success and reset the consecutive-failure
counter. -/
def onBackupSuccess (s : FbState) : FbState :=
  { s with successfulBackups := s.successfulBackups + 1,
           consecutiveFailures := 0 }

/-- `onBackupFailed`: count the failure and bump the consecutive-failure
counter (the diagnostic print once the threshold is crossed has no state). -/
def onBackupFailed (s : FbState) : FbState :=
  { s with failedBackups := s.failedBackups + 1,
           consecutiveFailures := s.consecutiveFailures + 1 }

/-- `backupData` from `firebase_manager.h`: skip (returning `false`, no
counter changes) unless `shouldBackup()`; otherwise stamp `lastBackupTime`,
count the attempt, then fail if Firebase is not ready, and otherwise follow
the `setJSON` outcome through `onBackupSuccess` / `onBackupFailed`. -/
def backupData (now : ℕ) (ready writeOk : Bool) (s : FbState) : FbState × Bool :=
  if shouldBackup now s = false then (s, false)
  else
    let s1 : FbState :=
      { s with lastBackupTime := now,
               totalBackups := s.totalBackups + 1,
               readingCount := s.readingCount + 1 }
    if ready = false then (onBackupFailed s1, false)
    else if writeOk then (onBackupSuccess s1, true)
    else (onBackupFailed s1, false)

end FirebaseManager

/-- Run a sequence of `backupData` calls; each list entry is one call's
`(now, ready, writeOk)` environment. -/
def runBackups (calls : List (ℕ × Bool × Bool)) (s : FbState) : FbState :=
  calls.foldl (fun t c => (FirebaseManager.backupData c.1 c.2.1 c.2.2 t).1) s

/-- Once the breaker is open, a single `backupData` call is a no-op. -/
lemma backupData_noop_of_breaker_open
    (now : ℕ) (ready writeOk : Bool) (s : FbState)
    (hmax : s.maxConsecutiveFailures ≤ s.consecutiveFailures) :
    FirebaseManager.backupData now ready writeOk s = (s, false) := by
  have hsb : FirebaseManager.shouldBackup now s = false := by
    unfold FirebaseManager.shouldBackup
    split_ifs <;> rfl
  unfold FirebaseManager.backupData
  rw [hsb]
  simp

/-- C2: once `consecutiveFailures` has reached
`maxConsecutiveFailures = MAX_FAILED_UPLOADS = 10`, `shouldBackup` is false
and any sequence of further `backupData` calls — whatever their environment,
including calls whose underlying write would have succeeded — leaves the
state unchanged, so the breaker stays open for the rest of the session; and
any `backupData` call that returns success resets `consecutiveFailures` to
0. -/
theorem C2_circuit_breaker_permanent_and_reset :
    (∀ s : FbState,
      s.maxConsecutiveFailures = MAX_FAILED_UPLOADS →
      MAX_FAILED_UPLOADS ≤ s.consecutiveFailures →
      ∀ (calls : List (ℕ × Bool × Bool)) (now : ℕ),
        runBackups calls s = s ∧
        FirebaseManager.shouldBackup now s = false) ∧
    (∀ (now : ℕ) (ready writeOk : Bool) (s : FbState),
      (FirebaseManager.backupData now ready writeOk s).2 = true →
      (FirebaseManager.backupData now ready writeOk s).1.consecutiveFailures = 0) := by
  constructor
  · intro s hfield hmax calls now
    have hmax2 : s.maxConsecutiveFailures ≤ s.consecutiveFailures := by
      rw [hfield]; exact hmax
    constructor
    · induction calls with
      | nil => rfl
      | cons c rest ih =>
        show runBackups rest (FirebaseManager.backupData c.1 c.2.1 c.2.2 s).1 = s
        rw [backupData_noop_of_breaker_open c.1 c.2.1 c.2.2 s hmax2]
        exact ih
    · unfold FirebaseManager.shouldBackup
      split_ifs <;> rfl
  · intro now ready writeOk s h
    unfold FirebaseManager.backupData at h ⊢
    split_ifs at h ⊢
    rfl

/-- A manager state whose breaker has just opened: 10 consecutive failures. -/
def openBreakerFbState : FbState :=
  { initFbState with initialized := true,
                     failedBackups := 10,
                     consecutiveFailures := 10 }

/-- A healthy initialized manager state. -/
def readyFbState : FbState :=
  { initFbState with initialized := true }

/-- Witness for C2: with the breaker open, a later call whose write would
have succeeded changes nothing and `shouldBackup` stays false; and from the
healthy state a successful backup leaves `consecutiveFailures = 0`. -/
theorem C2_circuit_breaker_permanent_and_reset_witness :
    (runBackups [(20000, true, true)] openBreakerFbState = openBreakerFbState ∧
     FirebaseManager.shouldBackup 20000 openBreakerFbState = false) ∧
    (FirebaseManager.backupData 15000 true true readyFbState).1.consecutiveFailures = 0 := by
  constructor
  · exact C2_circuit_breaker_permanent_and_reset.1 openBreakerFbState
      (by decide) (by decide) [(20000, true, true)] 20000
  · exact C2_circuit_breaker_permanent_and_reset.2 15000 true true readyFbState
      (by decide)

/-! ## DeliveryPipeline (`sensor_simulate.h` upload fan-out and statistics)

`SensorSimulator.uploadToCloud` is embedded over its upload statistics
counters and the same external inputs as `CloudManager.uploadData` (Wi-Fi
check, DNS check, HTTP response code); it is `void` in the source, so the
model returns only the updated counters.  The fan-out section at the end of
`makePrediction` is embedded as `predictUploadPhase`. -/

/-- The upload statistics counters of `SensorSimulator`. -/
structure SimStats where
  totalCloudUploads : ℕ
  successfulUploads : ℕ
  failedUploads : ℕ
deriving DecidableEq, Repr

/-- The constructor-initialised statistics. -/
def initSimStats : SimStats := ⟨0, 0, 0⟩

namespace SensorSimulator

/-- `uploadToCloud` from `sensor_simulate.h`: count the attempt in
`totalCloudUploads`, then return early with `failedUploads` incremented on a
failed Wi-Fi check, on a failed DNS resolution, on a non-200 HTTP response,
or on a transport-level error (`httpCode ≤ 0`); increment
`successfulUploads` only on HTTP 200. -/
def uploadToCloud (wifiConnected dnsOk : Bool) (httpCode : ℤ) (s : SimStats) :
    SimStats :=
  let s1 : SimStats := { s with totalCloudUploads := s.totalCloudUploads + 1 }
  if wifiConnected = false then
    { s1 with failedUploads := s1.failedUploads + 1 }
  else if dnsOk = false then
    { s1 with failedUploads := s1.failedUploads + 1 }
  else if 0 < httpCode then
    if httpCode = 200 then
      { s1 with successfulUploads := s1.successfulUploads + 1 }
    else
      { s1 with failedUploads := s1.failedUploads + 1 }
  else
    { s1 with failedUploads := s1.failedUploads + 1 }

/-- Result of the upload section of `makePrediction`: the two sink states
and whether each sink's attempt method was invoked. -/
structure PhaseResult where
  sim : SimStats
  fb : FbState
  cloudInvoked : Bool
  backupInvoked : Bool

/-- The upload fan-out at the end of `makePrediction` in
`sensor_simulate.h`: when `wifiAvailable`, call `uploadToCloud` (whose
return paths cannot alter control flow — the function is `void`), then,
when a Firebase manager is configured, call `backupData`; when Wi-Fi is
unavailable both sinks are skipped. -/
def predictUploadPhase (wifiAvailable hasFirebaseManager : Bool)
    (wifiConnected dnsOk : Bool) (httpCode : ℤ)
    (now : ℕ) (ready writeOk : Bool)
    (sim : SimStats) (fb : FbState) : PhaseResult :=
  if wifiAvailable then
    let sim2 := uploadToCloud wifiConnected dnsOk httpCode sim
    if hasFirebaseManager then
      ⟨sim2, (FirebaseManager.backupData now ready writeOk fb).1, true, true⟩
    else
      ⟨sim2, fb, true, false⟩
  else
    ⟨sim, fb, false, false⟩

end SensorSimulator

/-- C9: on a prediction tick with connectivity available and a Firebase
manager configured, both sinks are invoked independently: for every
environment of the ThingSpeak upload — including each of its failing return
paths — the `backupData` call still happens, the backup state is exactly the
result of `backupData`, and the upload counters are exactly the result of
`uploadToCloud`, neither influencing the other. -/
theorem C9_sinks_invoked_independently :
    ∀ (wifiConnected dnsOk : Bool) (httpCode : ℤ)
      (now : ℕ) (ready writeOk : Bool) (sim : SimStats) (fb : FbState),
      (SensorSimulator.predictUploadPhase true true wifiConnected dnsOk httpCode
          now ready writeOk sim fb).backupInvoked = true ∧
      (SensorSimulator.predictUploadPhase true true wifiConnected dnsOk httpCode
          now ready writeOk sim fb).fb
        = (FirebaseManager.backupData now ready writeOk fb).1 ∧
      (SensorSimulator.predictUploadPhase true true wifiConnected dnsOk httpCode
          now ready writeOk sim fb).sim
        = SensorSimulator.uploadToCloud wifiConnected dnsOk httpCode sim := by
  intro wifiConnected dnsOk httpCode now ready writeOk sim fb
  exact ⟨rfl, rfl, rfl⟩

/-- C10: the per-sink statistics stay mutually consistent: one complete
`uploadToCloud` call preserves
`totalCloudUploads = successfulUploads + failedUploads` (the total and
exactly one outcome counter are incremented on every return path), and one
complete `backupData` call preserves
`totalBackups = successfulBackups + failedBackups` (a skipped attempt
changes no counter). -/
theorem C10_stats_counters_consistent :
    (∀ (wifiConnected dnsOk : Bool) (httpCode : ℤ) (s : SimStats),
      s.totalCloudUploads = s.successfulUploads + s.failedUploads →
      (SensorSimulator.uploadToCloud wifiConnected dnsOk httpCode s).totalCloudUploads
        = (SensorSimulator.uploadToCloud wifiConnected dnsOk httpCode s).successfulUploads
          + (SensorSimulator.uploadToCloud wifiConnected dnsOk httpCode s).failedUploads) ∧
    (∀ (now : ℕ) (ready writeOk : Bool) (s : FbState),
      s.totalBackups = s.successfulBackups + s.failedBackups →
      (FirebaseManager.backupData now ready writeOk s).1.totalBackups
        = (FirebaseManager.backupData now ready writeOk s).1.successfulBackups
          + (FirebaseManager.backupData now ready writeOk s).1.failedBackups) := by
  constructor
  · intro wifiConnected dnsOk httpCode s h
    unfold SensorSimulator.uploadToCloud
    split_ifs <;> simp <;> omega
  · intro now ready writeOk s h
    unfold FirebaseManager.backupData
    split_ifs <;>
      simp [FirebaseManager.onBackupSuccess, FirebaseManager.onBackupFailed] <;>
      omega

/-- Witness for C10: both invariants evaluated from the freshly constructed
managers through one concrete call each. -/
theorem C10_stats_counters_consistent_witness :
    (SensorSimulator.uploadToCloud true true 404 initSimStats).totalCloudUploads
      = (SensorSimulator.uploadToCloud true true 404 initSimStats).successfulUploads
        + (SensorSimulator.uploadToCloud true true 404 initSimStats).failedUploads ∧
    (FirebaseManager.backupData 15000 true true readyFbState).1.totalBackups
      = (FirebaseManager.backupData 15000 true true readyFbState).1.successfulBackups
        + (FirebaseManager.backupData 15000 true true readyFbState).1.failedBackups :=
  ⟨C10_stats_counters_consistent.1 true true 404 initSimStats rfl,
   C10_stats_counters_consistent.2 15000 true true readyFbState rfl⟩
